/-
  Verification of the DocAnalyzerOllama pipeline (doc_analyzer.py).

  The Python program is a three-stage pipeline: extract an article with a
  browser (external collaborator), analyze it with a local language model
  (external collaborator, invoked via subprocess), and revise it with a second
  model call.  We shallowly embed the pure logic (JSON span extraction, shape
  normalization, prompt construction) and the control flow of the entry point,
  treating the browser, the model process and the stdlib JSON parser as
  oracles supplied as parameters.
-/
import Mathlib

namespace DocAnalyzer

/-- A model of Python values that can appear in a parsed JSON document
    (the values `json.loads` can produce, dicts as association lists). -/
inductive JSON where
  | JNull
  | JBool (b : Bool)
  | JNum (n : Int)
  | JStr (s : String)
  | JArr (l : List JSON)
  | JObj (kvs : List (String × JSON))

open JSON

/-- Python exceptions that the embedded fragments can raise. -/
inductive PyErr where
  | keyError (key : String)
  | typeError
  | attributeError
  | valueError (msg : String)
  | jsonDecodeError (msg : String)
  | exception (msg : String)
deriving DecidableEq

/-- `extract_json` (doc_analyzer.py lines 80-97): the semantics of
    `re.search(r'(\{.*\})', text, re.DOTALL)`.  `re.search` returns the
    leftmost match; the greedy `.*` under DOTALL then extends to the last
    `\x7d` of the text, so the match (when it exists) spans from the first
    `\x7b` to the last `\x7d` that follows it.  On no match the Python code
    raises `ValueError("No JSON object found in text")`; we return `.error`. -/
def extract_json (text : List Char) : Except String (List Char) :=
  let candidate := ((text.dropWhile (· != '\x7b')).reverse.dropWhile (· != '\x7d')).reverse
  if candidate.isEmpty then Except.error "No JSON object found in text" else Except.ok candidate

/-- The `isinstance(raw_json.get("readability"), str)` test of
    `normalize_analysis_json` (line 121), on `dict.get`'s optional result. -/
def isStrOpt : Option JSON → Bool
  | some (JStr _) => true
  | _ => false

/-- The inner `wrap` closure of `normalize_analysis_json`
    (doc_analyzer.py lines 112-119).  `raw_json[key]` raises `KeyError`
    when the key is absent. -/
def wrap (raw : List (String × JSON)) (key : String) : Except PyErr JSON :=
  match raw.lookup key with
  | none => Except.error (PyErr.keyError key)
  | some v => Except.ok (JObj
      [("assessment", v),
       ("suggestions", JArr
         [JStr ("Improve " ++ key ++ " clarity"),
          JStr ("Use simpler structure for " ++ key)])])

/-- `normalize_analysis_json` (doc_analyzer.py lines 100-132).  If the value
    under "readability" is a plain string the whole dict is treated as flat
    and rebuilt; otherwise it is returned unchanged.  The dict literal of the
    flat branch evaluates `wrap("readability")`, `wrap("structure")`,
    `wrap("completeness")` in that order, so a `KeyError` from an absent key
    escapes. -/
def normalize_analysis_json (raw : List (String × JSON)) :
    Except PyErr (List (String × JSON)) := do
  if isStrOpt (raw.lookup "readability") then
    let r ← wrap raw "readability"
    let s ← wrap raw "structure"
    let c ← wrap raw "completeness"
    pure
      [("readability", r),
       ("structure", s),
       ("completeness", c),
       ("style_guidelines", JObj
         [("assessment", JStr "Review"),
          ("suggestions", (raw.lookup "style_guidelines").getD (JArr []))])]
  else
    pure raw

/-- `build_analysis_prompt` (doc_analyzer.py lines 135-166): a fixed template
    instantiated with the title and the article text. -/
def build_analysis_prompt (title article_text : String) : String :=
  "\nYou are a documentation analyzer assistant.\n\n" ++
  "Analyze the following documentation article and provide actionable suggestions based on:\n\n" ++
  "1. Readability for a marketer (explain why it is or isn't readable).\n" ++
  "2. Structure and flow (headings, paragraphs, lists, logical order).\n" ++
  "3. Completeness of information and examples (are details and examples sufficient?).\n" ++
  "4. Adherence to Microsoft Style Guide tips:\n" ++
  "   - Use bigger ideas, fewer words.\n" ++
  "   - Write like you speak.\n" ++
  "   - Project friendliness with contractions.\n\n" ++
  "Article Title: " ++ title ++ "\n\n" ++
  "Article Content:\n" ++ article_text ++ "\n\n" ++
  "Provide your analysis as a JSON object with keys: readability, structure, completeness, style_guidelines.\n" ++
  "Each key should have 'assessment' (string) and 'suggestions' (list of strings).\n"

/-- `suggestions.get('readability', \x7b\x7d).get('suggestions', [])` in
    `build_revision_prompt` (line 181).  The second `.get` is a dict method:
    on a non-dict value Python raises `AttributeError`. -/
def readability_suggestions_of (suggestions : List (String × JSON)) : Except PyErr JSON :=
  match (suggestions.lookup "readability").getD (JObj []) with
  | JObj kvs => Except.ok ((kvs.lookup "suggestions").getD (JArr []))
  | _ => Except.error PyErr.attributeError

/-- The `style_guidelines` shape dispatch of `build_revision_prompt`
    (lines 183-189): dict uses its "suggestions" entry (default `[]`),
    a list is used as-is, anything else becomes `[]`. -/
def style_suggestions_of (suggestions : List (String × JSON)) : JSON :=
  match (suggestions.lookup "style_guidelines").getD (JArr []) with
  | JObj kvs => (kvs.lookup "suggestions").getD (JArr [])
  | JArr l => JArr l
  | _ => JArr []

/-- Python `+` restricted to the values that can reach line 191:
    list concatenation, string concatenation, `TypeError` otherwise. -/
def pyAdd : JSON → JSON → Except PyErr JSON
  | JArr a, JArr b => Except.ok (JArr (a ++ b))
  | JStr a, JStr b => Except.ok (JStr (a ++ b))
  | _, _ => Except.error PyErr.typeError

/-- `combined_suggestions = readability_suggestions + style_suggestions`
    (doc_analyzer.py line 191). -/
def combined_suggestions (suggestions : List (String × JSON)) : Except PyErr JSON := do
  let rs ← readability_suggestions_of suggestions
  pyAdd rs (style_suggestions_of suggestions)

/-- Python truthiness of the values `combined_suggestions` can hold. -/
def jtruthy : JSON → Bool
  | JArr l => !l.isEmpty
  | JStr s => s != ""
  | JObj kvs => !kvs.isEmpty
  | JBool b => b
  | JNum n => n != 0
  | JNull => false

/-- `sep.join(x)` for the values reaching line 192: joining a list requires
    every element to be a string (`TypeError` otherwise); joining a string
    joins its one-character substrings. -/
def pyJoin (sep : String) : JSON → Except PyErr String
  | JArr l =>
    match (l.mapM fun v => match v with | JStr s => some s | _ => none) with
    | some strs => Except.ok (String.intercalate sep strs)
    | none => Except.error PyErr.typeError
  | JStr s => Except.ok (String.intercalate sep (s.data.map fun c => String.mk [c]))
  | _ => Except.error PyErr.typeError

/-- The fixed template of `build_revision_prompt` (lines 194-206),
    instantiated with the article text and the rendered suggestions text. -/
def revisionTemplate (article_text suggestions_text : String) : String :=
  "\nYou are a skilled technical writer assistant.\n\n" ++
  "Here is an original documentation article:\n\n" ++
  article_text ++ "\n\n" ++
  "Based on the following suggestions, please rewrite the article to improve readability and style while keeping the original meaning intact:\n\n" ++
  suggestions_text ++ "\n\n" ++
  "Please output only the revised article text.\n"

/-- `build_revision_prompt` (doc_analyzer.py lines 169-206). -/
def build_revision_prompt (article_text : String) (suggestions : List (String × JSON)) :
    Except PyErr String := do
  let combined ← combined_suggestions suggestions
  let suggestions_text ←
    if jtruthy combined then do
      let joined ← pyJoin "\n- " combined
      pure ("\n- " ++ joined)
    else
      pure "No suggestions provided."
  pure (revisionTemplate article_text suggestions_text)

/-- Outcome of one run of the external model process (`ollama run ...`):
    its return code classified, with the captured stream. -/
inductive ModelResult where
  | ok (stdout : String)
  | err (stderr : String)

/-- Python's `str.strip()` (no argument): remove leading and trailing
    whitespace (modelled for ASCII whitespace). -/
def pyStrip (s : String) : String :=
  String.mk (((s.data.dropWhile Char.isWhitespace).reverse.dropWhile
    Char.isWhitespace).reverse)

/-- `query_ollama` (doc_analyzer.py lines 49-77): non-zero return code raises
    `Exception(f"Ollama error: ...")` with the stripped stderr, success
    returns the stripped stdout. -/
def query_ollama (res : ModelResult) : Except PyErr String :=
  match res with
  | ModelResult.err stderr =>
    Except.error (PyErr.exception ("Ollama error: " ++ pyStrip stderr))
  | ModelResult.ok stdout => Except.ok (pyStrip stdout)

/-- What the browser session observably does for one run of
    `extract_article_with_playwright`: navigation fails, the selector wait
    times out, or the page renders with/without the article container.
    The title element's text and the container's extracted text are oracles. -/
inductive PageOutcome where
  | gotoError (msg : String)
  | selectorTimeout
  | contentNoArticle (title : Option String)
  | contentWithArticle (title : Option String) (body : String)

/-- Console messages of the program, as events. -/
inductive Out where
  | openingBrowser
  | timeoutGuidance
  | titleLine (title : String)
  | preview (text : String)
  | sendingAnalysis
  | analysisHeader
  | analysisDump (analysis : List (String × JSON))
  | generatingRevision
  | revisedHeader
  | revisedText (text : String)
  | parseFailNotice (raw errMsg : String)
  | processingError (e : PyErr)

/-- Result of `extract_article_with_playwright`: the value or the exception,
    the messages printed, whether `browser.close()` ran. -/
structure ExtractRet where
  result : Except PyErr (Option String × Option String)
  prints : List Out
  browserClosed : Bool

/-- `title = soup.title.string.strip() if soup.title else "No title found"`
    (doc_analyzer.py line 37). -/
def titleOf : Option String → String
  | none => "No title found"
  | some t => pyStrip t

/-- `extract_article_with_playwright` (doc_analyzer.py lines 8-46), as a
    function of the browser-session outcome.  A timeout on the selector wait
    prints guidance, closes the browser and returns `(None, None)`; a missing
    container after a successful wait closes the browser then raises; a
    navigation error propagates before `browser.close()` is reached. -/
def extract_article_with_playwright (po : PageOutcome) : ExtractRet :=
  match po with
  | PageOutcome.gotoError msg =>
    { result := Except.error (PyErr.exception msg)
      prints := [Out.openingBrowser]
      browserClosed := false }
  | PageOutcome.selectorTimeout =>
    { result := Except.ok (none, none)
      prints := [Out.openingBrowser, Out.timeoutGuidance]
      browserClosed := true }
  | PageOutcome.contentNoArticle _ =>
    { result := Except.error (PyErr.exception "Article content not found after CAPTCHA.")
      prints := [Out.openingBrowser]
      browserClosed := true }
  | PageOutcome.contentWithArticle t body =>
    { result := Except.ok (some (titleOf t), some body)
      prints := [Out.openingBrowser]
      browserClosed := true }

/-- Python truthiness of `title` / `article` in `if title and article:`. -/
def truthyStr : Option String → Bool
  | none => false
  | some s => s != ""

/-- Observable outcome of one run of the `__main__` block. -/
structure MainResult where
  prints : List Out
  analyzerCalled : Bool
  reviserCalled : Bool
  unhandled : Option PyErr

/-- Which except-clause of lines 237-242 catches an exception raised in the
    try block: `(json.JSONDecodeError, ValueError)` prints the raw model
    output, the later `except Exception` prints a generic diagnostic. -/
def caughtPrint (raw : String) : PyErr → Out
  | PyErr.valueError m => Out.parseFailNotice raw m
  | PyErr.jsonDecodeError m => Out.parseFailNotice raw m
  | e => Out.processingError e

/-- Result of the try block: the messages it prints and whether the second
    model call (the Reviser) was reached. -/
structure TryResult where
  prints : List Out
  reviserCalled : Bool

/-- Lines 232-235 of the try block: the second `query_ollama` call (the
    Reviser) and the printing of its result; an exception from it is caught
    by `except Exception`. -/
def reviseStep (analysis : List (String × JSON)) (resp : String) (m2 : ModelResult) :
    TryResult :=
  match query_ollama m2 with
  | Except.error e =>
    { prints := [Out.analysisHeader, Out.analysisDump analysis,
        Out.generatingRevision, caughtPrint resp e],
      reviserCalled := true }
  | Except.ok revised =>
    { prints := [Out.analysisHeader, Out.analysisDump analysis,
        Out.generatingRevision, Out.revisedHeader, Out.revisedText revised],
      reviserCalled := true }

/-- Lines 227-231 of the try block: print the analysis, then build the
    revision prompt; an exception from the prompt builder is caught. -/
def promptStep (analysis : List (String × JSON)) (resp : String)
    (pr : Except PyErr String) (m2 : ModelResult) : TryResult :=
  match pr with
  | Except.error e =>
    { prints := [Out.analysisHeader, Out.analysisDump analysis,
        Out.generatingRevision, caughtPrint resp e],
      reviserCalled := false }
  | Except.ok _prompt => reviseStep analysis resp m2

/-- Line 225 of the try block: normalization; a `KeyError` from it is caught
    by `except Exception`. -/
def normalizeStep (article resp : String)
    (nr : Except PyErr (List (String × JSON))) (m2 : ModelResult) : TryResult :=
  match nr with
  | Except.error e => { prints := [caughtPrint resp e], reviserCalled := false }
  | Except.ok analysis =>
    promptStep analysis resp (build_revision_prompt article analysis) m2

/-- Line 224 of the try block: `json.loads` of the candidate substring;
    a `JSONDecodeError` is caught by the first except-clause. -/
def parseStep (article resp : String) (pres : Except String (List (String × JSON)))
    (m2 : ModelResult) : TryResult :=
  match pres with
  | Except.error m =>
    { prints := [caughtPrint resp (PyErr.jsonDecodeError m)], reviserCalled := false }
  | Except.ok raw => normalizeStep article resp (normalize_analysis_json raw) m2

/-- The try block of `__main__` (doc_analyzer.py lines 222-236): extract the
    JSON span from the analyzer's raw output, parse it, normalize it, build
    the revision prompt and invoke the model again.  Every exception raised
    here is caught by one of the two except-clauses (lines 237-242), which
    only differ in what they print (`caughtPrint`). -/
def tryAnalysis (article resp : String)
    (parse : String → Except String (List (String × JSON))) (m2 : ModelResult) :
    TryResult :=
  match extract_json resp.data with
  | Except.error m =>
    { prints := [caughtPrint resp (PyErr.valueError m)], reviserCalled := false }
  | Except.ok jchars => parseStep article resp (parse (String.mk jchars)) m2

/-- The `__main__` block (doc_analyzer.py lines 209-242), as a function of
    the browser-session outcome, the two model-process outcomes and the
    stdlib JSON parser (an oracle: `json.loads` restricted to the object
    results relevant here).  Only the code from `try:` (line 222) onwards is
    protected by except-clauses; exceptions from the extractor and from the
    first `query_ollama` call are unhandled. -/
def pyMain (po : PageOutcome) (m1 : ModelResult)
    (parse : String → Except String (List (String × JSON))) (m2 : ModelResult) :
    MainResult :=
  let ex := extract_article_with_playwright po
  match ex.result with
  | Except.error e =>
    { prints := ex.prints, analyzerCalled := false, reviserCalled := false,
      unhandled := some e }
  | Except.ok (topt, aopt) =>
    if truthyStr topt && truthyStr aopt then
      let article := aopt.getD ""
      let prints0 := ex.prints ++
        [Out.titleLine (topt.getD ""), Out.preview (article.take 1000), Out.sendingAnalysis]
      match query_ollama m1 with
      | Except.error e =>
        { prints := prints0, analyzerCalled := true, reviserCalled := false,
          unhandled := some e }
      | Except.ok resp =>
        let tr := tryAnalysis article resp parse m2
        { prints := prints0 ++ tr.prints, analyzerCalled := true,
          reviserCalled := tr.reviserCalled, unhandled := none }
    else
      { prints := ex.prints, analyzerCalled := false, reviserCalled := false,
        unhandled := none }

/-! ### Helper lemmas -/

theorem dropWhile_append_all {α : Type} (p : α → Bool) (a rest : List α)
    (h : ∀ x ∈ a, p x = true) :
    (a ++ rest).dropWhile p = rest.dropWhile p := by
  induction a with
  | nil => rfl
  | cons x xs ih =>
    rw [List.cons_append, List.dropWhile_cons, if_pos (h x (List.mem_cons_self x xs))]
    exact ih fun y hy => h y (List.mem_cons_of_mem x hy)

theorem dropWhile_cons_neg {α : Type} (p : α → Bool) (x : α) (xs : List α)
    (h : p x = false) :
    (x :: xs).dropWhile p = x :: xs := by
  rw [List.dropWhile_cons, if_neg]
  simp [h]

theorem dropWhile_head_false {α : Type} (p : α → Bool) :
    ∀ (l : List α) (y : α) (ys : List α), l.dropWhile p = y :: ys → p y = false := by
  intro l
  induction l with
  | nil => intro y ys h; simp [List.dropWhile] at h
  | cons x xs ih =>
    intro y ys h
    rw [List.dropWhile_cons] at h
    by_cases hp : p x = true
    · exact ih y ys (by rwa [if_pos hp] at h)
    · rw [if_neg hp] at h
      cases h
      exact Bool.eq_false_iff.mpr hp

/-! ### C2: JSON span extraction -/

theorem extract_json_span (a b c : List Char) (ha : '\x7b' ∉ a) (hc : '\x7d' ∉ c) :
    extract_json (a ++ '\x7b' :: (b ++ '\x7d' :: c)) =
      Except.ok ('\x7b' :: (b ++ ['\x7d'])) := by
  have h1 : (a ++ '\x7b' :: (b ++ '\x7d' :: c)).dropWhile (· != '\x7b') =
      '\x7b' :: (b ++ '\x7d' :: c) := by
    rw [dropWhile_append_all _ a _ fun x hx =>
      bne_iff_ne.mpr fun heq => ha (by rwa [heq] at hx)]
    exact dropWhile_cons_neg _ _ _ (by simp)
  have h2 : ('\x7b' :: (b ++ '\x7d' :: c)).reverse =
      c.reverse ++ '\x7d' :: (b.reverse ++ ['\x7b']) := by
    simp [List.reverse_cons, List.reverse_append, List.append_assoc]
  have h3 : (c.reverse ++ '\x7d' :: (b.reverse ++ ['\x7b'])).dropWhile (· != '\x7d') =
      '\x7d' :: (b.reverse ++ ['\x7b']) := by
    rw [dropWhile_append_all _ c.reverse _ fun x hx =>
      bne_iff_ne.mpr fun heq => hc (by rw [heq] at hx; exact List.mem_reverse.mp hx)]
    exact dropWhile_cons_neg _ _ _ (by simp)
  have h4 : ('\x7d' :: (b.reverse ++ ['\x7b'])).reverse = '\x7b' :: (b ++ ['\x7d']) := by
    simp [List.reverse_cons, List.reverse_append]
  unfold extract_json
  rw [h1, h2, h3, h4]
  rfl

theorem extract_json_no_span (s : List Char)
    (h : ∀ a b c : List Char, s ≠ a ++ '\x7b' :: (b ++ '\x7d' :: c)) :
    extract_json s = Except.error "No JSON object found in text" := by
  unfold extract_json
  by_cases hc :
      (((s.dropWhile (· != '\x7b')).reverse.dropWhile (· != '\x7d')).reverse).isEmpty = true
  · simp only [hc, if_true]
  · exfalso
    rw [List.isEmpty_iff] at hc
    generalize hd_def : s.dropWhile (· != '\x7b') = d at hc
    generalize hw_def : d.reverse.dropWhile (· != '\x7d') = w at hc
    have hwne : w ≠ [] := fun hnil => hc (by rw [hnil]; rfl)
    obtain ⟨y, ys, hys⟩ := List.exists_cons_of_ne_nil hwne
    have hy : y = '\x7d' := by
      simpa [bne_eq_false_iff_eq] using
        dropWhile_head_false (· != '\x7d') d.reverse y ys (hw_def.trans hys)
    have hdne : d ≠ [] := by
      intro hnil
      apply hwne
      rw [← hw_def, hnil]
      rfl
    obtain ⟨z, zs, hzs⟩ := List.exists_cons_of_ne_nil hdne
    have hz : z = '\x7b' := by
      simpa [bne_eq_false_iff_eq] using
        dropWhile_head_false (· != '\x7b') s z zs (hd_def.trans hzs)
    -- the reversed suffix decomposes around the last closing brace
    have hsplit : d.reverse.takeWhile (· != '\x7d') ++ y :: ys = d.reverse := by
      have h0 := List.takeWhile_append_dropWhile (· != '\x7d') d.reverse
      rw [hw_def, hys] at h0
      exact h0
    generalize htw : (d.reverse.takeWhile (· != '\x7d')).reverse = tw at *
    have hdval : d = ys.reverse ++ '\x7d' :: tw := by
      have h1 := congrArg List.reverse hsplit
      rw [List.reverse_reverse] at h1
      rw [← h1, hy, ← htw]
      simp [List.reverse_append, List.reverse_cons, List.append_assoc]
    -- peel the leading opening brace off that decomposition
    rcases hyrev : ys.reverse with _ | ⟨w2, ws⟩
    · rw [hyrev, List.nil_append] at hdval
      rw [hzs] at hdval
      have hzclose : z = '\x7d' := List.head_eq_of_cons_eq hdval
      rw [hz] at hzclose
      exact absurd hzclose (by decide)
    · rw [hyrev, List.cons_append] at hdval
      rw [hzs] at hdval
      have htail : zs = ws ++ '\x7d' :: tw := List.tail_eq_of_cons_eq hdval
      apply h (s.takeWhile (· != '\x7b')) ws tw
      conv_lhs => rw [← List.takeWhile_append_dropWhile (· != '\x7b') s]
      rw [hd_def, hzs, hz, htail]

/-- C2: for every text containing a `\x7b` followed later by a `\x7d`,
    `extract_json` returns exactly the span from the first `\x7b` to the last
    `\x7d` (every such text decomposes as `a ++ '\x7b' :: b ++ '\x7d' :: c`
    with no `\x7b` in `a` and no `\x7d` in `c`); on the spec's example it
    returns exactly the nested-object substring; and on every text with no
    such span it fails with the structured `ValueError` message. -/
theorem c2_extract_json_spec :
    (∀ a b c : List Char, '\x7b' ∉ a → '\x7d' ∉ c →
      extract_json (a ++ '\x7b' :: (b ++ '\x7d' :: c)) =
        Except.ok ('\x7b' :: (b ++ ['\x7d']))) ∧
    extract_json ("Here is the result: \x7b\"a\": \x7b\"b\": 1\x7d\x7d Thanks!").data =
      Except.ok ("\x7b\"a\": \x7b\"b\": 1\x7d\x7d").data ∧
    (∀ s : List Char, (∀ a b c : List Char, s ≠ a ++ '\x7b' :: (b ++ '\x7d' :: c)) →
      extract_json s = Except.error "No JSON object found in text") :=
  ⟨extract_json_span, by rfl, extract_json_no_span⟩

/-- Witness for C2 at a concrete decomposition. -/
theorem c2_extract_json_spec_witness :
    extract_json ("ab".data ++ '\x7b' :: ("x".data ++ '\x7d' :: "cd".data)) =
      Except.ok ('\x7b' :: ("x".data ++ ['\x7d'])) :=
  c2_extract_json_spec.1 "ab".data "x".data "cd".data (by decide) (by decide)

/-! ### C4: nested responses pass through unchanged -/

/-- C4: whenever the value under "readability" is not a plain string
    (a nested object, some other value, or the key absent),
    `normalize_analysis_json` returns the input object unchanged — mixed or
    partially-nested responses are not repaired. -/
theorem c4_normalize_identity (raw : List (String × JSON))
    (h : isStrOpt (raw.lookup "readability") = false) :
    normalize_analysis_json raw = Except.ok raw := by
  unfold normalize_analysis_json
  rw [h]
  rfl

/-- Witness for C4: a nested readability value (and a still-flat
    completeness) passes through unchanged. -/
theorem c4_normalize_identity_witness :
    normalize_analysis_json
      [("readability", JObj [("assessment", JStr "ok"), ("suggestions", JArr [])]),
       ("completeness", JStr "flat")] =
    Except.ok
      [("readability", JObj [("assessment", JStr "ok"), ("suggestions", JArr [])]),
       ("completeness", JStr "flat")] :=
  c4_normalize_identity _ rfl

/-! ### C9: missing keys in the flat branch raise KeyError -/

/-- C9: if the "readability" value is a plain string (flat branch) but
    "structure" or "completeness" is absent, `normalize_analysis_json`
    raises a `KeyError` instead of returning a normalized object. -/
theorem c9_missing_key_keyerror (raw : List (String × JSON))
    (hr : isStrOpt (raw.lookup "readability") = true)
    (h : raw.lookup "structure" = none ∨ raw.lookup "completeness" = none) :
    normalize_analysis_json raw = Except.error (PyErr.keyError "structure") ∨
    normalize_analysis_json raw = Except.error (PyErr.keyError "completeness") := by
  rcases hl : raw.lookup "readability" with _ | v
  · rw [hl] at hr; simp [isStrOpt] at hr
  rcases v with _ | _ | _ | sr | _ | _ <;> rw [hl] at hr <;> simp [isStrOpt] at hr
  rcases hst : raw.lookup "structure" with _ | vs
  · left
    unfold normalize_analysis_json wrap
    rw [hl, hst]
    rfl
  · right
    rcases h with h | h
    · rw [h] at hst; exact Option.noConfusion hst
    · unfold normalize_analysis_json wrap
      rw [hl, hst, h]
      rfl

/-- Witness for C9: flat readability with "structure" absent. -/
theorem c9_missing_key_keyerror_witness :
    normalize_analysis_json [("readability", JStr "ok")] =
      Except.error (PyErr.keyError "structure") ∨
    normalize_analysis_json [("readability", JStr "ok")] =
      Except.error (PyErr.keyError "completeness") :=
  c9_missing_key_keyerror _ rfl (Or.inl rfl)

/-! ### C1: normalization of flat responses -/

/-- A flat-shaped raw object with string values at all four keys (with an
    empty readability string and an empty style string, which the code
    accepts as flat). -/
def c1flatInput : List (String × JSON) :=
  [("readability", JStr ""), ("structure", JStr "b"),
   ("completeness", JStr "c"), ("style_guidelines", JStr "")]

/-- Formalization of C1's stated per-key conclusion (follows the claim's
    words, not the code): the value is a record whose "assessment" is a
    non-empty string and whose "suggestions" is a non-empty sequence of
    strings. -/
def aspectFeedbackOK : JSON → Bool
  | JObj kvs =>
    (match kvs.lookup "assessment" with
     | some (JStr a) => a != ""
     | _ => false) &&
    (match kvs.lookup "suggestions" with
     | some (JArr l) =>
       !l.isEmpty && l.all (fun v => match v with | JStr _ => true | _ => false)
     | _ => false)
  | _ => false

/-- Formalization of C1's full conclusion (follows the claim's words):
    normalization succeeds and every one of the four keys satisfies
    `aspectFeedbackOK`. -/
def c1ClaimConclusion (raw : List (String × JSON)) : Bool :=
  match normalize_analysis_json raw with
  | Except.ok res =>
    ["readability", "structure", "completeness", "style_guidelines"].all
      fun k => match res.lookup k with
        | some v => aspectFeedbackOK v
        | none => false
  | Except.error _ => false

/-- Counterexample to C1: `c1flatInput` is flat-shaped (a plain string at
    each of the four keys), yet the normalized object violates the claimed
    conclusion — readability's "assessment" is the empty original string, and
    style_guidelines gets the constant "Review" assessment with its
    "suggestions" set to the raw string value itself, not a non-empty
    sequence of strings. -/
theorem c1_counterexample :
    c1flatInput.lookup "readability" = some (JStr "") ∧
    c1flatInput.lookup "structure" = some (JStr "b") ∧
    c1flatInput.lookup "completeness" = some (JStr "c") ∧
    c1flatInput.lookup "style_guidelines" = some (JStr "") ∧
    c1ClaimConclusion c1flatInput = false :=
  ⟨rfl, rfl, rfl, rfl, rfl⟩

/-- C1 (amended): for flat-shaped raw objects (string values at all four
    keys), normalization wraps readability, structure and completeness into
    records whose "assessment" is exactly the original string and whose
    "suggestions" is a fixed non-empty two-element list of generated strings,
    while style_guidelines becomes a record with the constant assessment
    "Review" and the raw string value itself (not a string sequence) as its
    "suggestions". -/
theorem c1_flat_normalization (raw : List (String × JSON)) (ra st co sg : String)
    (h1 : raw.lookup "readability" = some (JStr ra))
    (h2 : raw.lookup "structure" = some (JStr st))
    (h3 : raw.lookup "completeness" = some (JStr co))
    (h4 : raw.lookup "style_guidelines" = some (JStr sg)) :
    normalize_analysis_json raw = Except.ok
      [("readability", JObj [("assessment", JStr ra),
         ("suggestions", JArr [JStr "Improve readability clarity",
                               JStr "Use simpler structure for readability"])]),
       ("structure", JObj [("assessment", JStr st),
         ("suggestions", JArr [JStr "Improve structure clarity",
                               JStr "Use simpler structure for structure"])]),
       ("completeness", JObj [("assessment", JStr co),
         ("suggestions", JArr [JStr "Improve completeness clarity",
                               JStr "Use simpler structure for completeness"])]),
       ("style_guidelines", JObj [("assessment", JStr "Review"),
         ("suggestions", JStr sg)])] := by
  unfold normalize_analysis_json wrap
  rw [h1, h2, h3, h4]
  rfl

/-- Witness for the amended C1 at the concrete flat input. -/
theorem c1_flat_normalization_witness :
    normalize_analysis_json c1flatInput = Except.ok
      [("readability", JObj [("assessment", JStr ""),
         ("suggestions", JArr [JStr "Improve readability clarity",
                               JStr "Use simpler structure for readability"])]),
       ("structure", JObj [("assessment", JStr "b"),
         ("suggestions", JArr [JStr "Improve structure clarity",
                               JStr "Use simpler structure for structure"])]),
       ("completeness", JObj [("assessment", JStr "c"),
         ("suggestions", JArr [JStr "Improve completeness clarity",
                               JStr "Use simpler structure for completeness"])]),
       ("style_guidelines", JObj [("assessment", JStr "Review"),
         ("suggestions", JStr "")])] :=
  c1_flat_normalization c1flatInput "" "b" "c" "" rfl rfl rfl rfl

/-! ### C5: style_guidelines shape dispatch in the revision prompt -/

/-- C5: the revision-prompt builder concatenates readability.suggestions
    with the style_guidelines suggestions, resolving the style_guidelines
    shape by type inspection: a bare list `["tip1","tip2"]` contributes both
    tips to the combined list, and an object with a "suggestions" list
    contributes its elements; on concrete analyses the full prompt renders
    those tips as bullet items. -/
theorem c5_style_shape_dispatch :
    (∀ (sugg : List (String × JSON)) (rl : List JSON),
      readability_suggestions_of sugg = Except.ok (JArr rl) →
      sugg.lookup "style_guidelines" = some (JArr [JStr "tip1", JStr "tip2"]) →
      combined_suggestions sugg = Except.ok (JArr (rl ++ [JStr "tip1", JStr "tip2"])) ∧
      JStr "tip1" ∈ rl ++ [JStr "tip1", JStr "tip2"] ∧
      JStr "tip2" ∈ rl ++ [JStr "tip1", JStr "tip2"]) ∧
    (∀ (sugg : List (String × JSON)) (rl : List JSON),
      readability_suggestions_of sugg = Except.ok (JArr rl) →
      sugg.lookup "style_guidelines" = some (JObj [("suggestions", JArr [JStr "tip3"])]) →
      combined_suggestions sugg = Except.ok (JArr (rl ++ [JStr "tip3"])) ∧
      JStr "tip3" ∈ rl ++ [JStr "tip3"]) ∧
    build_revision_prompt "ART" [("style_guidelines", JArr [JStr "tip1", JStr "tip2"])] =
      Except.ok (revisionTemplate "ART" "\n- tip1\n- tip2") ∧
    build_revision_prompt "ART"
        [("style_guidelines", JObj [("suggestions", JArr [JStr "tip3"])])] =
      Except.ok (revisionTemplate "ART" "\n- tip3") := by
  refine ⟨fun sugg rl hr hs => ⟨?_, ?_, ?_⟩, fun sugg rl hr hs => ⟨?_, ?_⟩, by rfl, by rfl⟩
  · unfold combined_suggestions style_suggestions_of
    rw [hr, hs]
    rfl
  · exact List.mem_append_right rl (by simp)
  · exact List.mem_append_right rl (by simp)
  · unfold combined_suggestions style_suggestions_of
    rw [hr, hs]
    rfl
  · exact List.mem_append_right rl (by simp)

/-- Witness for C5: a concrete analysis with a bare-list style_guidelines. -/
theorem c5_style_shape_dispatch_witness :
    combined_suggestions [("style_guidelines", JArr [JStr "tip1", JStr "tip2"])] =
      Except.ok (JArr ([] ++ [JStr "tip1", JStr "tip2"])) ∧
    JStr "tip1" ∈ [] ++ [JStr "tip1", JStr "tip2"] ∧
    JStr "tip2" ∈ [] ++ [JStr "tip1", JStr "tip2"] :=
  c5_style_shape_dispatch.1 [("style_guidelines", JArr [JStr "tip1", JStr "tip2"])]
    [] rfl rfl

/-! ### C8: empty combined suggestions produce the marker text -/

/-- C8: whenever the combined suggestion list is empty, the revision prompt
    is the template instantiated with the literal marker
    "No suggestions provided." (so it carries the marker verbatim and never
    an empty bullet list). -/
theorem c8_empty_suggestions_marker (art : String) (sugg : List (String × JSON))
    (h : combined_suggestions sugg = Except.ok (JArr [])) :
    build_revision_prompt art sugg =
      Except.ok (revisionTemplate art "No suggestions provided.") ∧
    ("No suggestions provided.").data <:+: (revisionTemplate art "No suggestions provided.").data := by
  constructor
  · unfold build_revision_prompt
    rw [h]
    rfl
  · unfold revisionTemplate
    simp only [String.data_append]
    refine ⟨("\nYou are a skilled technical writer assistant.\n\n").data ++
      ("Here is an original documentation article:\n\n").data ++ art.data ++ ("\n\n").data ++
      ("Based on the following suggestions, please rewrite the article to improve readability and style while keeping the original meaning intact:\n\n").data,
      ("\n\n").data ++ ("Please output only the revised article text.\n").data, ?_⟩
    simp only [List.append_assoc]

/-- Witness for C8: the empty analysis yields empty combined suggestions and
    the marker prompt. -/
theorem c8_empty_suggestions_marker_witness :
    build_revision_prompt "A" [] =
      Except.ok (revisionTemplate "A" "No suggestions provided.") ∧
    ("No suggestions provided.").data <:+: (revisionTemplate "A" "No suggestions provided.").data :=
  c8_empty_suggestions_marker "A" [] rfl

/-! ### Step lemmas for the entry point -/

theorem pyMain_guard_false (t : Option String) (body : String) (m1 : ModelResult)
    (parse : String → Except String (List (String × JSON))) (m2 : ModelResult)
    (h : (truthyStr (some (titleOf t)) && truthyStr (some body)) = false) :
    pyMain (PageOutcome.contentWithArticle t body) m1 parse m2 =
      { prints := [Out.openingBrowser], analyzerCalled := false,
        reviserCalled := false, unhandled := none } := by
  unfold pyMain
  simp only [extract_article_with_playwright, h, Bool.false_eq_true, if_false]

theorem pyMain_guard_true (t : Option String) (body resp : String) (m1 : ModelResult)
    (parse : String → Except String (List (String × JSON))) (m2 : ModelResult)
    (ht : titleOf t ≠ "") (hb : body ≠ "")
    (hq : query_ollama m1 = Except.ok resp) :
    pyMain (PageOutcome.contentWithArticle t body) m1 parse m2 =
      { prints := [Out.openingBrowser, Out.titleLine (titleOf t),
          Out.preview (body.take 1000), Out.sendingAnalysis] ++
          (tryAnalysis body resp parse m2).prints,
        analyzerCalled := true,
        reviserCalled := (tryAnalysis body resp parse m2).reviserCalled,
        unhandled := none } := by
  have hcond : (truthyStr (some (titleOf t)) && truthyStr (some body)) = true := by
    simp [truthyStr, bne_iff_ne, ht, hb]
  unfold pyMain
  simp only [extract_article_with_playwright, hcond, if_true, hq]
  rfl

theorem pyMain_model1_error (t : Option String) (body : String) (m1 : ModelResult)
    (parse : String → Except String (List (String × JSON))) (m2 : ModelResult)
    (e : PyErr)
    (ht : titleOf t ≠ "") (hb : body ≠ "")
    (hq : query_ollama m1 = Except.error e) :
    pyMain (PageOutcome.contentWithArticle t body) m1 parse m2 =
      { prints := [Out.openingBrowser, Out.titleLine (titleOf t),
          Out.preview (body.take 1000), Out.sendingAnalysis],
        analyzerCalled := true, reviserCalled := false, unhandled := some e } := by
  have hcond : (truthyStr (some (titleOf t)) && truthyStr (some body)) = true := by
    simp [truthyStr, bne_iff_ne, ht, hb]
  unfold pyMain
  simp only [extract_article_with_playwright, hcond, if_true, hq]
  rfl

/-! ### C7: selector timeout is a soft failure, Analyzer never runs -/

/-- C7: on a selector-wait timeout the extractor prints guidance, closes the
    browser and returns the failure indicator `(None, None)`, and under that
    outcome the entry point never invokes the Analyzer model call (nor the
    Reviser) and exits without a fault. -/
theorem c7_timeout_halts_pipeline :
    (extract_article_with_playwright PageOutcome.selectorTimeout).result =
      Except.ok (none, none) ∧
    (extract_article_with_playwright PageOutcome.selectorTimeout).browserClosed = true ∧
    Out.timeoutGuidance ∈ (extract_article_with_playwright PageOutcome.selectorTimeout).prints ∧
    ∀ (m1 : ModelResult) (parse : String → Except String (List (String × JSON)))
      (m2 : ModelResult),
      (pyMain PageOutcome.selectorTimeout m1 parse m2).analyzerCalled = false ∧
      (pyMain PageOutcome.selectorTimeout m1 parse m2).reviserCalled = false ∧
      (pyMain PageOutcome.selectorTimeout m1 parse m2).unhandled = none := by
  refine ⟨rfl, rfl, ?_, fun m1 parse m2 => ⟨rfl, rfl, rfl⟩⟩
  simp [extract_article_with_playwright]

/-! ### C10: empty extracted body silently skips the pipeline -/

/-- C10: when extraction succeeds but the body text is empty, the guard
    `if title and article:` fails, so nothing is printed beyond the
    extractor's own messages and neither the Analyzer nor the Reviser model
    call runs; the title produced when the page has no title element is the
    non-empty fallback "No title found". -/
theorem c10_empty_body_skips_pipeline (t : Option String) (m1 : ModelResult)
    (parse : String → Except String (List (String × JSON))) (m2 : ModelResult) :
    (pyMain (PageOutcome.contentWithArticle t "") m1 parse m2).prints =
      [Out.openingBrowser] ∧
    (pyMain (PageOutcome.contentWithArticle t "") m1 parse m2).analyzerCalled = false ∧
    (pyMain (PageOutcome.contentWithArticle t "") m1 parse m2).reviserCalled = false ∧
    (pyMain (PageOutcome.contentWithArticle t "") m1 parse m2).unhandled = none ∧
    titleOf none = "No title found" := by
  have h := pyMain_guard_false t "" m1 parse m2 (by simp [truthyStr])
  rw [h]
  exact ⟨rfl, rfl, rfl, rfl, rfl⟩

/-! ### C3: which failures are caught at the top level -/

/-- Counterexample to C3: a `ContentMissing` failure from the extractor, and
    a model-invocation failure of the Analyzer, are raised outside the
    `try:` block, so both leave the entry point with an unhandled exception
    instead of being caught and logged. -/
theorem c3_counterexample :
    (pyMain (PageOutcome.contentNoArticle none) (ModelResult.ok "out")
      (fun _ => Except.error "e") (ModelResult.ok "rev")).unhandled =
      some (PyErr.exception "Article content not found after CAPTCHA.") ∧
    (pyMain (PageOutcome.contentWithArticle none "body") (ModelResult.err "boom")
      (fun _ => Except.error "e") (ModelResult.ok "rev")).unhandled =
      some (PyErr.exception "Ollama error: boom") :=
  ⟨rfl, rfl⟩

/-- C3 (amended): only failures raised inside the try block (JSON span
    extraction, JSON parsing, normalization, revision-prompt construction and
    the Reviser's model call) are caught, so once the Analyzer's model call
    has returned output the run never ends with an unhandled fault; a
    `ContentMissing` failure from the extractor after a successful wait, and
    a model-invocation error from the Analyzer's call, happen before the
    try block and terminate the run with an unhandled exception. -/
theorem c3_exception_scope :
    (∀ (t : Option String) (body resp : String) (m1 : ModelResult)
       (parse : String → Except String (List (String × JSON))) (m2 : ModelResult),
       query_ollama m1 = Except.ok resp →
       (pyMain (PageOutcome.contentWithArticle t body) m1 parse m2).unhandled = none) ∧
    (∀ (t : Option String) (m1 : ModelResult)
       (parse : String → Except String (List (String × JSON))) (m2 : ModelResult),
       (pyMain (PageOutcome.contentNoArticle t) m1 parse m2).unhandled =
         some (PyErr.exception "Article content not found after CAPTCHA.")) ∧
    (∀ (t : Option String) (body : String) (m1 : ModelResult) (e : PyErr)
       (parse : String → Except String (List (String × JSON))) (m2 : ModelResult),
       titleOf t ≠ "" → body ≠ "" → query_ollama m1 = Except.error e →
       (pyMain (PageOutcome.contentWithArticle t body) m1 parse m2).unhandled = some e) := by
  refine ⟨fun t body resp m1 parse m2 hq => ?_, fun t m1 parse m2 => rfl,
    fun t body m1 e parse m2 ht hb hq => ?_⟩
  · by_cases hc : (truthyStr (some (titleOf t)) && truthyStr (some body)) = true
    · unfold pyMain
      simp only [extract_article_with_playwright, hc, if_true, hq]
    · rw [pyMain_guard_false t body m1 parse m2 (Bool.eq_false_iff.mpr hc)]
  · rw [pyMain_model1_error t body m1 parse m2 e ht hb hq]

/-- Witness for C3 (amended) at concrete arguments. -/
theorem c3_exception_scope_witness :
    (pyMain (PageOutcome.contentWithArticle none "body") (ModelResult.ok "no json here")
      (fun _ => Except.error "e") (ModelResult.ok "rev")).unhandled = none ∧
    (pyMain (PageOutcome.contentWithArticle none "body") (ModelResult.err "boom")
      (fun _ => Except.error "e") (ModelResult.ok "rev")).unhandled =
      some (PyErr.exception "Ollama error: boom") :=
  ⟨c3_exception_scope.1 none "body" "no json here" (ModelResult.ok "no json here")
      (fun _ => Except.error "e") (ModelResult.ok "rev") rfl,
    c3_exception_scope.2.2 none "body" (ModelResult.err "boom")
      (PyErr.exception "Ollama error: boom")
      (fun _ => Except.error "e") (ModelResult.ok "rev") (by decide) (by decide) rfl⟩

/-! ### C6: analyzer output-handling failures are caught, Reviser never runs -/

/-- C6: when the analyzer's output handling fails — no JSON span in the
    model output, or the candidate substring fails to parse — the failure is
    caught, the raw model output is printed for inspection, the run exits
    without a fault, and the Reviser's model call is never made. -/
theorem c6_output_failure_halts :
    (∀ (t : Option String) (body : String) (m1 : ModelResult) (resp msg : String)
       (parse : String → Except String (List (String × JSON))) (m2 : ModelResult),
       titleOf t ≠ "" → body ≠ "" → query_ollama m1 = Except.ok resp →
       extract_json resp.data = Except.error msg →
       (pyMain (PageOutcome.contentWithArticle t body) m1 parse m2).reviserCalled = false ∧
       (pyMain (PageOutcome.contentWithArticle t body) m1 parse m2).unhandled = none ∧
       Out.parseFailNotice resp msg ∈
         (pyMain (PageOutcome.contentWithArticle t body) m1 parse m2).prints) ∧
    (∀ (t : Option String) (body : String) (m1 : ModelResult) (resp msg : String)
       (jchars : List Char)
       (parse : String → Except String (List (String × JSON))) (m2 : ModelResult),
       titleOf t ≠ "" → body ≠ "" → query_ollama m1 = Except.ok resp →
       extract_json resp.data = Except.ok jchars →
       parse (String.mk jchars) = Except.error msg →
       (pyMain (PageOutcome.contentWithArticle t body) m1 parse m2).reviserCalled = false ∧
       (pyMain (PageOutcome.contentWithArticle t body) m1 parse m2).unhandled = none ∧
       Out.parseFailNotice resp msg ∈
         (pyMain (PageOutcome.contentWithArticle t body) m1 parse m2).prints) := by
  constructor
  · intro t body m1 resp msg parse m2 ht hb hq hx
    rw [pyMain_guard_true t body resp m1 parse m2 ht hb hq]
    have htry : tryAnalysis body resp parse m2 =
        { prints := [Out.parseFailNotice resp msg], reviserCalled := false } := by
      unfold tryAnalysis
      rw [hx]
      rfl
    rw [htry]
    exact ⟨rfl, rfl, by simp⟩
  · intro t body m1 resp msg jchars parse m2 ht hb hq hx hp
    rw [pyMain_guard_true t body resp m1 parse m2 ht hb hq]
    have htry : tryAnalysis body resp parse m2 =
        { prints := [Out.parseFailNotice resp msg], reviserCalled := false } := by
      unfold tryAnalysis
      rw [hx]
      show parseStep body resp (parse (String.mk jchars)) m2 = _
      rw [hp]
      rfl
    rw [htry]
    exact ⟨rfl, rfl, by simp⟩

/-- Witness for C6: analyzer output with no JSON span. -/
theorem c6_output_failure_halts_witness :
    (pyMain (PageOutcome.contentWithArticle none "body") (ModelResult.ok "no json here")
      (fun _ => Except.error "e") (ModelResult.ok "rev")).reviserCalled = false ∧
    (pyMain (PageOutcome.contentWithArticle none "body") (ModelResult.ok "no json here")
      (fun _ => Except.error "e") (ModelResult.ok "rev")).unhandled = none ∧
    Out.parseFailNotice "no json here" "No JSON object found in text" ∈
      (pyMain (PageOutcome.contentWithArticle none "body") (ModelResult.ok "no json here")
        (fun _ => Except.error "e") (ModelResult.ok "rev")).prints :=
  c6_output_failure_halts.1 none "body" (ModelResult.ok "no json here")
    "no json here" "No JSON object found in text"
    (fun _ => Except.error "e") (ModelResult.ok "rev")
    (by decide) (by decide) rfl rfl

end DocAnalyzer
